import Mathlib

/-!
# Verification of the Audience Pulse YouTube client

Shallow embedding of `src/backend/app/services/youtube_client.py` and
`src/backend/app/services/analyzer.py`. Remote API interactions are
modelled as oracle functions supplied as parameters; control flow,
error classification, caching, ranking and selection follow the Python
source line by line.
-/

deriving instance DecidableEq for Except

namespace AudiencePulse

/-! ## String helpers mirroring Python's `in`, `split`, `startswith` -/

/-- `startsWithChars s pat` is Python's `s.startswith(pat)` on char lists. -/
def startsWithChars : List Char → List Char → Bool
  | _, [] => true
  | [], _ :: _ => false
  | c :: cs, p :: ps => c == p && startsWithChars cs ps

/-- `containsChars pat s` is Python's `pat in s` on char lists. -/
def containsChars (pat : List Char) : List Char → Bool
  | [] => startsWithChars [] pat
  | c :: cs => startsWithChars (c :: cs) pat || containsChars pat cs

/-- Python's substring test `pat in s`. -/
def strContains (s pat : String) : Bool :=
  containsChars pat.data s.data

/-- Python's `s.split(sep)` for a single-character separator. -/
def splitChar (sep : Char) : List Char → List (List Char)
  | [] => [[]]
  | c :: cs =>
    let r := splitChar sep cs
    if c == sep then [] :: r else (c :: r.headD []) :: r.tail

/-- Final segment of `path.split('/')`, i.e. Python's `path.split('/')[-1]`. -/
def lastSegment (path : String) : String :=
  ⟨(splitChar '/' path.data).getLastD []⟩

/-- Suffix of `s` after the last (left-to-right, non-overlapping) occurrence
of `sep`; `s` itself when `sep` does not occur.  This is Python's
`s.split(sep)[-1]`. -/
def afterLastSubGo (sep : List Char) : Nat → List Char → List Char → List Char
  | 0, _, best => best
  | _ + 1, [], best => best
  | fuel + 1, c :: cs, best =>
    if startsWithChars (c :: cs) sep then
      let rest := (c :: cs).drop sep.length
      afterLastSubGo sep fuel rest rest
    else
      afterLastSubGo sep fuel cs best

/-- Python's `s.split(sep)[-1]` for a non-empty separator. -/
def afterLastSub (sep s : String) : String :=
  ⟨afterLastSubGo sep.data s.data.length s.data s.data⟩

/-- Python truthiness of an optional string (`None` and `""` are falsy). -/
def pyTruthy : Option String → Bool
  | none => false
  | some s => !(s == "")

/-! ## Configuration (`FetchConfig`, youtube_client.py lines 10-21) -/

/-- `FetchConfig` dataclass with its source defaults. -/
structure FetchConfig where
  max_videos : Nat := 50
  max_comments_per_video : Nat := 100
  popular_videos_count : Nat := 5
  least_popular_videos_count : Nat := 5
  retry_attempts : Nat := 5
  retry_delay : ℚ := 2
  enable_comments : Bool := true
  enable_concurrent_fetching : Bool := true
  max_workers : Nat := 5
deriving DecidableEq

/-! ## Exceptions and per-attempt outcomes -/

/-- A Python exception as observed by the client code:
`YouTubeFetcherError`, `googleapiclient.errors.HttpError` (with its
`resp.status` and `content`), or any other exception (with its `str`). -/
inductive PyExn where
  | fetcher (msg : String)
  | httpError (status : Nat) (content : String)
  | otherExn (msg : String)
deriving DecidableEq

/-- Outcome of one underlying attempt of a wrapped API call:
a successful value, a `TimeoutError`/`FutureTimeoutError`, an
`HttpError`, or any other exception with message `msg`. -/
inductive Outcome (α : Type) where
  | ok (v : α)
  | timeout
  | http (status : Nat) (content : String)
  | exn (msg : String)
deriving DecidableEq

/-- Result of `_retry_api_call`: either return a value or raise. -/
inductive RetryResult (α : Type) where
  | success (v : α)
  | raised (e : PyExn)
deriving DecidableEq

/-- Observable trace of one `_retry_api_call` invocation: its result,
how many attempts were executed, and the list of `time.sleep` delays. -/
structure RetryTrace (α : Type) where
  result : RetryResult α
  attempts : Nat
  sleeps : List ℚ
deriving DecidableEq

/-- The SSL / connection keywords of youtube_client.py line 118. -/
def retryableKeywords : List String :=
  ["ssl", "connection", "timeout", "record layer", "read operation timed out"]

/-- Python's `str.lower` (character-wise lowercasing). -/
def strLower (s : String) : String :=
  ⟨s.data.map Char.toLower⟩

/-- `any(ssl_error in error_str.lower() for ssl_error in [...])`. -/
def hasConnKeyword (msg : String) : Bool :=
  retryableKeywords.any (fun k => strContains (strLower msg) k)

/-- Message of youtube_client.py line 102. -/
def timedOutMsg (n : Nat) : String :=
  s!"API call timed out after {n} attempts"

/-- Message of youtube_client.py line 135. -/
def connFailedMsg (n : Nat) (e : String) : String :=
  s!"Connection failed after {n} attempts: {e}"

/-- Message of youtube_client.py line 141. -/
def failedMsg (n : Nat) : String :=
  s!"Failed after {n} attempts"

/-- One pass of the `for attempt in range(retry_attempts)` loop of
`_retry_api_call` (youtube_client.py lines 75-141).  `fuel` is the number
of loop iterations remaining, `attempt` the current 0-based index, and
`sleeps` the delays accumulated so far.  The outcome of the wrapped call
at each attempt is supplied by `f`. -/
def retryGo (cfg : FetchConfig) (f : Nat → Outcome α) :
    Nat → Nat → List ℚ → RetryTrace α
  | 0, attempt, sleeps =>
    ⟨.raised (.fetcher (failedMsg cfg.retry_attempts)), attempt, sleeps⟩
  | fuel + 1, attempt, sleeps =>
    match f attempt with
    | .ok v => ⟨.success v, attempt + 1, sleeps⟩
    | .timeout =>
      if attempt < cfg.retry_attempts - 1 then
        retryGo cfg f fuel (attempt + 1) (sleeps ++ [cfg.retry_delay * 2 ^ attempt])
      else
        ⟨.raised (.fetcher (timedOutMsg cfg.retry_attempts)), attempt + 1, sleeps⟩
    | .http status content =>
      if status == 429 then
        retryGo cfg f fuel (attempt + 1) (sleeps ++ [cfg.retry_delay * 2 ^ attempt])
      else if status == 500 || status == 502 || status == 503 || status == 504 then
        if attempt < cfg.retry_attempts - 1 then
          retryGo cfg f fuel (attempt + 1) (sleeps ++ [cfg.retry_delay])
        else
          ⟨.raised (.httpError status content), attempt + 1, sleeps⟩
      else
        ⟨.raised (.httpError status content), attempt + 1, sleeps⟩
    | .exn msg =>
      if hasConnKeyword msg then
        if attempt < cfg.retry_attempts - 1 then
          retryGo cfg f fuel (attempt + 1) (sleeps ++ [cfg.retry_delay * 2 ^ attempt])
        else
          ⟨.raised (.fetcher (connFailedMsg cfg.retry_attempts msg)), attempt + 1, sleeps⟩
      else
        if attempt < cfg.retry_attempts - 1 then
          retryGo cfg f fuel (attempt + 1) (sleeps ++ [cfg.retry_delay])
        else
          ⟨.raised (.otherExn msg), attempt + 1, sleeps⟩

/-- `_retry_api_call` (youtube_client.py lines 75-141), as a function of
the per-attempt outcomes `f`. -/
def retry_api_call (cfg : FetchConfig) (f : Nat → Outcome α) : RetryTrace α :=
  retryGo cfg f cfg.retry_attempts 0 []

/-- The failure classes `_retry_api_call` treats as retryable: timeouts,
HTTP 429, the server statuses 500/502/503/504, and exceptions whose text
mentions a connection/SSL keyword. -/
def isRetryable : Outcome α → Bool
  | .ok _ => false
  | .timeout => true
  | .http s _ => s == 429 || s == 500 || s == 502 || s == 503 || s == 504
  | .exn m => hasConnKeyword m

/-- The value `_retry_api_call` produces once every attempt has failed,
as a function of the final attempt's outcome: a `YouTubeFetcherError`
for timeouts, rate limits and connection failures, but the underlying
exception re-raised for server errors and other exceptions. -/
def exhaustedResult (n : Nat) : Outcome α → RetryResult α
  | .ok v => .success v
  | .timeout => .raised (.fetcher (timedOutMsg n))
  | .http s c =>
    if s == 429 then .raised (.fetcher (failedMsg n)) else .raised (.httpError s c)
  | .exn m =>
    if hasConnKeyword m then .raised (.fetcher (connFailedMsg n m))
    else .raised (.otherExn m)

/-! ## Links and URL handling -/

/-- A link together with its `urlparse` components: the raw string, the
`netloc`, the `path`, and the `parse_qs` view of the query (only pairs
with a non-blank value, as `parse_qs` drops blank values). -/
structure Link where
  raw : String
  netloc : String
  path : String
  query : List (String × String)
deriving DecidableEq

/-- `urlparse(link).hostname` restricted to a netloc: the part after the
last `@`, before the port separator, lowercased. -/
def hostOf (netloc : String) : String :=
  strLower ⟨((splitChar '@' netloc.data).getLastD []).takeWhile (fun c => c != ':')⟩

/-- `urlparse(link).hostname` as used by `analyze_link`: `none` when the
link has no netloc (Python returns `None`). -/
def hostnameOf (u : Link) : Option String :=
  if u.netloc == "" then none else some (hostOf u.netloc)

/-- `_validate_url` (youtube_client.py lines 67-73):
`parsed.netloc in ['www.youtube.com', 'youtube.com', 'youtu.be']`. -/
def validate_url (u : Link) : Bool :=
  u.netloc == "www.youtube.com" || u.netloc == "youtube.com" || u.netloc == "youtu.be"

/-- `_extract_video_id` (youtube_client.py lines 143-162). -/
def extract_video_id (u : Link) : Option String :=
  if !validate_url u then none
  else if u.netloc == "youtu.be" then
    some ⟨u.path.data.dropWhile (fun c => c == '/')⟩
  else if strContains u.path "watch" then
    (u.query.find? (fun p => p.fst == "v")).map (fun p => p.snd)
  else if strContains u.path "/embed/" then
    some (afterLastSub "/embed/" u.path)
  else
    none

/-! ## Channel-identifier resolution (`_extract_channel_id`) -/

/-- Oracle view of the remote lookups used during channel-identifier
resolution.  Each field stands for one network-touching helper of the
source; exceptions raised inside a helper are absorbed into `none`
because `_extract_channel_id` wraps the strategies in a blanket
`except Exception` (youtube_client.py lines 209-210). -/
structure Remote where
  /-- `_get_video_details([video_id])[0].snippet.channelId` (lines 185-187). -/
  videoChannelId : String → Option String
  /-- `_search_channel_by_handle` (lines 238-345). -/
  handleSearch : String → Option String
  /-- `_try_direct_handle_resolution` (lines 347-385). -/
  directHandle : String → Option String
  /-- `_search_channel_by_query` (lines 387-402). -/
  querySearch : String → Option String

/-- Mutable state of one `YouTubeFetcher` instance that resolution
touches: the `self._cache` mapping and a count of remote lookups
performed (for stating "no network call" properties). -/
structure FetchState where
  cache : List (String × String)
  networkCalls : Nat
deriving DecidableEq

/-- Lookup in the instance cache (`self._cache`). -/
def cacheLookup (cache : List (String × String)) (k : String) : Option String :=
  (cache.find? (fun p => p.fst == k)).map (fun p => p.snd)

/-- The path-directed strategy dispatch of `_extract_channel_id`
(youtube_client.py lines 175-207): returns the resolved identifier (if
any) together with the number of remote lookups performed. -/
def resolveByPath (rem : Remote) (u : Link) : Option String × Nat :=
  if strContains u.path "watch" then
    match extract_video_id u with
    | some vid => (rem.videoChannelId vid, 1)
    | none => (none, 0)
  else if strContains u.path "/channel/" then
    (some (lastSegment u.path), 0)
  else if startsWithChars u.path.data "/@".data then
    let handle := u.path.drop 2
    let c1 := rem.handleSearch handle
    if pyTruthy c1 then (c1, 1)
    else (rem.directHandle handle, 2)
  else if strContains u.path "/c/" || strContains u.path "/user/" then
    (rem.querySearch (lastSegment u.path), 1)
  else
    (none, 0)

/-- `_extract_channel_id` (youtube_client.py lines 164-219): URL
validation, cache lookup keyed by `"channel_id:" ++ link`, strategy
dispatch, and caching of truthy results. -/
def extract_channel_id (rem : Remote) (u : Link) (st : FetchState) :
    Option String × FetchState :=
  if !validate_url u then (none, st)
  else
    match cacheLookup st.cache ("channel_id:" ++ u.raw) with
    | some c => (some c, st)
    | none =>
      let r := resolveByPath rem u
      let st' : FetchState := ⟨st.cache, st.networkCalls + r.2⟩
      if pyTruthy r.1 then
        (r.1, ⟨("channel_id:" ++ u.raw, r.1.getD "") :: st'.cache, st'.networkCalls⟩)
      else
        (r.1, st')

/-! ## Video records, ranking and selection -/

/-- The `statistics` sub-dictionary of a video resource; `viewCount`
may be absent. -/
structure VideoStats where
  viewCount : Option Nat := none
deriving DecidableEq

/-- A video resource as returned by `videos().list`: its id, the
`snippet.channelId` (possibly absent), and optional `statistics`. -/
structure VideoRec where
  id : String := ""
  channelId : Option String := none
  statistics : Option VideoStats := none
deriving DecidableEq

/-- `int(x.get('statistics', {}).get('viewCount', 0))`
(youtube_client.py line 559). -/
def viewCountOf (v : VideoRec) : Nat :=
  match v.statistics with
  | none => 0
  | some s => s.viewCount.getD 0

/-- Stable insertion into a descending-by-view-count list: the new
element goes before the first strictly smaller entry and after all
entries with an equal or larger view count. -/
def insertByViews (x : VideoRec) : List VideoRec → List VideoRec
  | [] => [x]
  | y :: ys =>
    if viewCountOf y ≤ viewCountOf x then x :: y :: ys
    else y :: insertByViews x ys

/-- `video_details.sort(key=..., reverse=True)` (youtube_client.py
lines 558-561): Python's stable sort, descending by view count. -/
def rank_videos : List VideoRec → List VideoRec
  | [] => []
  | x :: xs => insertByViews x (rank_videos xs)

/-- Python's `l[-k:]` slice: the whole list when `k = 0`, otherwise the
last `k` elements. -/
def pyTakeLast (k : Nat) (l : List α) : List α :=
  if k = 0 then l else l.drop (l.length - k)

/-- `most_popular = video_details[:popular_count]` with
`popular_count = min(config.popular_videos_count, len(video_details))`
(youtube_client.py lines 564, 567). -/
def select_most_popular (cfg : FetchConfig) (ranked : List VideoRec) : List VideoRec :=
  ranked.take (min cfg.popular_videos_count ranked.length)

/-- `least_popular = video_details[-least_popular_count:] if
len(video_details) > popular_count else []` (youtube_client.py lines
565, 568). -/
def select_least_popular (cfg : FetchConfig) (ranked : List VideoRec) : List VideoRec :=
  let popular_count := min cfg.popular_videos_count ranked.length
  let least_popular_count := min cfg.least_popular_videos_count ranked.length
  if popular_count < ranked.length then pyTakeLast least_popular_count ranked
  else []

/-! ## Comment fetching and aggregation -/

/-- Oracle view of the remaining remote interactions of the aggregation
pipeline.  Per-attempt outcome oracles are used where the source wraps
the call in `_retry_api_call`; the playlist and detail helpers, whose
internal loops already degrade `HttpError` to a partial list, are
modelled at the level of their results. -/
structure World where
  /-- Attempt outcomes of `channels().list(part='snippet,statistics,contentDetails', id=cid)`
  (youtube_client.py lines 528-532); the value is the `items` list, as opaque tokens. -/
  channelsListOutcome : String → Nat → Outcome (List String)
  /-- Attempt outcomes of the `channels().list(part='contentDetails')` call inside
  `_get_channel_uploads_playlist_id` (lines 404-417); the value is the uploads
  playlist id when `items` is non-empty. -/
  uploadsOutcome : String → Nat → Outcome (Option String)
  /-- Result of `_get_video_ids_from_playlist` (lines 419-446); `HttpError` is
  caught inside and yields the ids gathered so far, other exceptions escape. -/
  playlistVideoIds : String → Except PyExn (List String)
  /-- Result of `_get_video_details` (lines 448-466); `HttpError` is caught
  inside, other exceptions escape. -/
  videoDetailsResp : List String → Except PyExn (List VideoRec)
  /-- Attempt outcomes of the `commentThreads().list` call for a given video id
  (lines 478-484); the value is the `items` list, as opaque tokens. -/
  commentsOutcome : String → Nat → Outcome (List String)

/-- `_get_comments_for_video` (youtube_client.py lines 468-494): short
circuit when comments are disabled, otherwise call through
`_retry_api_call`; only `HttpError` is caught (yielding the empty
list), every other exception propagates.  The second component is the
number of network attempts performed. -/
def get_comments_for_video (cfg : FetchConfig) (w : World) (vid : String) :
    Except PyExn (List String) × Nat :=
  if !cfg.enable_comments then (.ok [], 0)
  else
    let t := retry_api_call cfg (w.commentsOutcome vid)
    match t.result with
    | .success items => (.ok items, t.attempts)
    | .raised (.httpError _ _) => (.ok [], t.attempts)
    | .raised e => (.error e, t.attempts)

/-- One `{'video': video, 'comments': comments}` pairing. -/
structure VideoWithComments where
  video : VideoRec
  comments : List String
deriving DecidableEq

/-- The body of `fetch_video_with_comments` (youtube_client.py lines
501-503): pair a video with its fetched comments, propagating any
exception of the fetch. -/
def fetch_video_with_comments (cfg : FetchConfig) (w : World) (v : VideoRec) :
    Except PyExn VideoWithComments :=
  match (get_comments_for_video cfg w v.id).1 with
  | .ok cs => .ok ⟨v, cs⟩
  | .error e => .error e

/-- `_get_videos_with_comments_sequential` (youtube_client.py lines
510-516): a strict left-to-right loop; the first exception aborts it. -/
def get_videos_with_comments_sequential (cfg : FetchConfig) (w : World) :
    List VideoRec → Except PyExn (List VideoWithComments)
  | [] => .ok []
  | v :: vs =>
    match fetch_video_with_comments cfg w v with
    | .error e => .error e
    | .ok r =>
      match get_videos_with_comments_sequential cfg w vs with
      | .error e => .error e
      | .ok rs => .ok (r :: rs)

/-- In-order collection of already-computed per-video results, as
`list(executor.map(...))` observes them: results are consumed in input
order and the first exception encountered is re-raised. -/
def collectInOrder : List (Except PyExn VideoWithComments) →
    Except PyExn (List VideoWithComments)
  | [] => .ok []
  | .error e :: _ => .error e
  | .ok r :: rest =>
    match collectInOrder rest with
    | .error e => .error e
    | .ok rs => .ok (r :: rs)

/-- `_get_videos_with_comments_concurrent` (youtube_client.py lines
496-508): fall back to the sequential loop when concurrency is
disabled; otherwise map the deterministic per-video fetch over the
input and consume the results in order (`executor.map` preserves input
order). -/
def get_videos_with_comments_concurrent (cfg : FetchConfig) (w : World)
    (videos : List VideoRec) : Except PyExn (List VideoWithComments) :=
  if !cfg.enable_concurrent_fetching then
    get_videos_with_comments_sequential cfg w videos
  else
    collectInOrder (videos.map (fetch_video_with_comments cfg w))

/-! ## `get_channel_data`, `get_video_data`, `analyze_link` -/

/-- A stand-in for Python's `str(e)` on a caught exception. -/
def strOfPyExn : PyExn → String
  | .fetcher m => m
  | .httpError s c => s!"<HttpError {s} {c}>"
  | .otherExn m => m

/-- The outer `except` clauses of `get_channel_data` / `get_video_data`
(youtube_client.py lines 578-582): a `YouTubeFetcherError` is re-raised
as-is, anything else is wrapped. -/
def wrapUnexpected : PyExn → PyExn
  | .fetcher m => .fetcher m
  | e => .fetcher ("Unexpected error: " ++ strOfPyExn e)

/-- `_get_channel_uploads_playlist_id` (youtube_client.py lines
404-417): retry-wrapped call, `HttpError` caught and degraded to
`none`, other exceptions escape. -/
def get_channel_uploads_playlist_id (cfg : FetchConfig) (w : World) (cid : String) :
    Except PyExn (Option String) :=
  match (retry_api_call cfg (w.uploadsOutcome cid)).result with
  | .success r => .ok r
  | .raised (.httpError _ _) => .ok none
  | .raised e => .error e

/-- The response payload assembled by `get_channel_data`
(youtube_client.py lines 547-553 and 570-576). -/
structure ChannelPayload where
  channel_id : String
  channel_details : String
  all_videos_summary : List VideoRec
  most_popular_videos_with_comments : List VideoWithComments
  least_popular_videos_with_comments : List VideoWithComments
deriving DecidableEq

/-- `get_channel_data` (youtube_client.py lines 518-582).  An
`Except.error` value models an exception escaping the method. -/
def get_channel_data (cfg : FetchConfig) (rem : Remote) (w : World) (u : Link)
    (st : FetchState) : Except PyExn ChannelPayload × FetchState :=
  let r := extract_channel_id rem u st
  if !pyTruthy r.1 then
    (.error (.fetcher ("Could not extract channel ID from " ++ u.raw)), r.2)
  else
    let cid := r.1.getD ""
    match (retry_api_call cfg (w.channelsListOutcome cid)).result with
    | .raised e => (.error (wrapUnexpected e), r.2)
    | .success items =>
      match items with
      | [] => (.error (.fetcher ("Channel " ++ cid ++ " not found")), r.2)
      | channel_details :: _ =>
        match get_channel_uploads_playlist_id cfg w cid with
        | .error e => (.error (wrapUnexpected e), r.2)
        | .ok none =>
          (.error (.fetcher ("Could not find uploads playlist for channel " ++ cid)), r.2)
        | .ok (some pl) =>
          match w.playlistVideoIds pl with
          | .error e => (.error (wrapUnexpected e), r.2)
          | .ok [] => (.ok ⟨cid, channel_details, [], [], []⟩, r.2)
          | .ok (vid0 :: vids) =>
            match w.videoDetailsResp (vid0 :: vids) with
            | .error e => (.error (wrapUnexpected e), r.2)
            | .ok details =>
              let ranked := rank_videos details
              let most := select_most_popular cfg ranked
              let least := select_least_popular cfg ranked
              match get_videos_with_comments_concurrent cfg w most with
              | .error e => (.error (wrapUnexpected e), r.2)
              | .ok mostC =>
                match get_videos_with_comments_concurrent cfg w least with
                | .error e => (.error (wrapUnexpected e), r.2)
                | .ok leastC => (.ok ⟨cid, channel_details, ranked, mostC, leastC⟩, r.2)

/-- The response payload of `get_video_data` (youtube_client.py lines
609-613): the channel aggregate extended with the requested video's own
details and comments. -/
structure VideoPayload where
  channel : ChannelPayload
  current_video_details : VideoRec
  current_video_comments : List String
deriving DecidableEq

/-- `get_video_data` (youtube_client.py lines 584-619). -/
def get_video_data (cfg : FetchConfig) (rem : Remote) (w : World) (u : Link)
    (st : FetchState) : Except PyExn VideoPayload × FetchState :=
  let vid? := extract_video_id u
  if !pyTruthy vid? then
    (.error (.fetcher ("Could not extract video ID from " ++ u.raw)), st)
  else
    let vid := vid?.getD ""
    match w.videoDetailsResp [vid] with
    | .error e => (.error (wrapUnexpected e), st)
    | .ok [] => (.error (.fetcher ("Video " ++ vid ++ " not found")), st)
    | .ok (d :: _) =>
      if !pyTruthy d.channelId then
        (.error (.fetcher ("Could not determine channel ID for video " ++ vid)), st)
      else
        let cid := d.channelId.getD ""
        let chLink : Link :=
          ⟨"https://www.youtube.com/channel/" ++ cid, "www.youtube.com",
           "/channel/" ++ cid, []⟩
        match get_channel_data cfg rem w chLink st with
        | (.error e, st') => (.error (wrapUnexpected e), st')
        | (.ok chp, st') =>
          match (get_comments_for_video cfg w vid).1 with
          | .error e => (.error (wrapUnexpected e), st')
          | .ok cs => (.ok ⟨chp, d, cs⟩, st')

/-- Result of one `analyze_link` call: a returned payload, a returned
`{"error": ...}` or `{"status": ...}` dictionary, or an exception that
propagates to the caller. -/
inductive AnalyzeResult where
  | channelPayload (p : ChannelPayload)
  | videoPayload (p : VideoPayload)
  | errorField (msg : String)
  | statusField (msg : String)
  | raised (e : PyExn)
deriving DecidableEq

/-- `analyze_link` (analyzer.py lines 6-41).  The fetcher is freshly
constructed per call (`YouTubeFetcher(api_key=...)`), so it uses the
default `FetchConfig` and an empty cache.  No `try`/`except` surrounds
the fetch calls: their exceptions propagate. -/
def analyze_link (apiKey : String) (rem : Remote) (w : World) (u : Link) :
    AnalyzeResult :=
  match hostnameOf u with
  | none => .errorField "Invalid link"
  | some host =>
    if strContains host "youtube.com" || strContains host "youtu.be" then
      if apiKey == "" then .errorField "YouTube API Key is not configured."
      else
        let cfg : FetchConfig := {}
        let st : FetchState := ⟨[], 0⟩
        if strContains u.path "watch" || strContains host "youtu.be" then
          match get_video_data cfg rem w u st with
          | (.ok p, _) => .videoPayload p
          | (.error e, _) => .raised e
        else
          match get_channel_data cfg rem w u st with
          | (.ok p, _) => .channelPayload p
          | (.error e, _) => .raised e
    else if strContains host "facebook.com" then
      .statusField "Facebook analysis not yet implemented."
    else if strContains host "instagram.com" then
      .statusField "Instagram analysis not yet implemented."
    else
      .errorField "Unknown or unsupported link type"

/-! ## Shared concrete fixtures -/

/-- A remote on which every resolution strategy fails. -/
def noRemote : Remote := ⟨fun _ => none, fun _ => none, fun _ => none, fun _ => none⟩

/-- A remote on which handle search succeeds with channel `UCabc`. -/
def demoRemote : Remote := ⟨fun _ => none, fun _ => some "UCabc", fun _ => none, fun _ => none⟩

/-- A world whose calls all succeed with empty data. -/
def idleWorld : World :=
  ⟨fun _ _ => .ok [], fun _ _ => .ok none, fun _ => .ok [], fun _ => .ok [], fun _ _ => .ok []⟩

/-- A world whose comment-thread calls always time out. -/
def timeoutWorld : World :=
  { idleWorld with commentsOutcome := fun _ _ => .timeout }

/-- Whether an `analyze_link` result is a returned `{"error": ...}` value. -/
def isErrorField : AnalyzeResult → Bool
  | .errorField _ => true
  | _ => false

/-- Whether an `analyze_link` result is an exception propagating to the caller. -/
def isRaisedExn : AnalyzeResult → Bool
  | .raised _ => true
  | _ => false

/-- A handle-style channel link on the whitelisted host. -/
def demoLink : Link := ⟨"https://www.youtube.com/@foo", "www.youtube.com", "/@foo", []⟩

/-- The fetcher state after resolving `demoLink` once from an empty cache. -/
def demoState1 : FetchState :=
  ⟨[("channel_id:https://www.youtube.com/@foo", "UCabc")], 1⟩

/-- A legacy `/c/` channel link whose query search finds nothing. -/
def demoCLink : Link :=
  ⟨"https://www.youtube.com/c/missing", "www.youtube.com", "/c/missing", []⟩

/-- A mobile-host channel link: hostname contains `youtube.com` but is
not one of the whitelisted netlocs. -/
def demoMobileLink : Link := ⟨"https://m.youtube.com/@foo", "m.youtube.com", "/@foo", []⟩

/-- A video record with the given id and view count. -/
def mkDemoVideo (i : String) (n : Nat) : VideoRec := ⟨i, none, some ⟨some n⟩⟩

/-- Eight videos, views already descending. -/
def demoEight : List VideoRec :=
  [mkDemoVideo "a" 80, mkDemoVideo "b" 70, mkDemoVideo "c" 60, mkDemoVideo "d" 50,
   mkDemoVideo "e" 40, mkDemoVideo "f" 30, mkDemoVideo "g" 20, mkDemoVideo "h" 10]

/-! ## Ranking: sortedness and stability -/

theorem mem_insertByViews {x y : VideoRec} {l : List VideoRec}
    (h : y ∈ insertByViews x l) : y = x ∨ y ∈ l := by
  induction l with
  | nil => simpa [insertByViews] using h
  | cons z zs ih =>
    by_cases hz : viewCountOf z ≤ viewCountOf x
    · simp only [insertByViews, if_pos hz, List.mem_cons] at h
      rcases h with h | h | h
      · exact Or.inl h
      · exact Or.inr (by simp [h])
      · exact Or.inr (by simp [h])
    · simp only [insertByViews, if_neg hz, List.mem_cons] at h
      rcases h with h | h
      · exact Or.inr (by simp [h])
      · rcases ih h with h' | h'
        · exact Or.inl h'
        · exact Or.inr (by simp [h'])

theorem pairwise_insertByViews {x : VideoRec} {l : List VideoRec}
    (h : l.Pairwise (fun a b => viewCountOf b ≤ viewCountOf a)) :
    (insertByViews x l).Pairwise (fun a b => viewCountOf b ≤ viewCountOf a) := by
  induction l with
  | nil => simp [insertByViews]
  | cons z zs ih =>
    rcases List.pairwise_cons.mp h with ⟨hhead, htail⟩
    by_cases hz : viewCountOf z ≤ viewCountOf x
    · rw [insertByViews, if_pos hz]
      refine List.pairwise_cons.mpr ⟨?_, h⟩
      intro y hy
      rcases List.mem_cons.mp hy with rfl | hy
      · exact hz
      · exact le_trans (hhead y hy) hz
    · rw [insertByViews, if_neg hz]
      refine List.pairwise_cons.mpr ⟨?_, ih htail⟩
      intro y hy
      rcases mem_insertByViews hy with rfl | hy
      · exact le_of_lt (lt_of_not_le hz)
      · exact hhead y hy

theorem filter_insertByViews (n : Nat) (x : VideoRec) (l : List VideoRec) :
    (insertByViews x l).filter (fun v => viewCountOf v == n) =
      if viewCountOf x == n then
        x :: l.filter (fun v => viewCountOf v == n)
      else
        l.filter (fun v => viewCountOf v == n) := by
  induction l with
  | nil =>
    by_cases hx : (viewCountOf x == n) = true
    · simp [insertByViews, List.filter, hx]
    · simp [insertByViews, List.filter, hx]
  | cons z zs ih =>
    by_cases hz : viewCountOf z ≤ viewCountOf x
    · rw [insertByViews, if_pos hz]
      by_cases hx : (viewCountOf x == n) = true
      · simp [List.filter, hx]
      · simp [List.filter, hx]
    · rw [insertByViews, if_neg hz]
      by_cases hx : (viewCountOf x == n) = true
      · have hzn : (viewCountOf z == n) = false := by
          have h1 : viewCountOf x = n := by simpa using hx
          have h2 : viewCountOf x < viewCountOf z := lt_of_not_le hz
          simp
          omega
        simp [List.filter, hzn, ih, hx]
      · by_cases hzn : (viewCountOf z == n) = true
        · simp [List.filter, hzn, ih, hx]
        · simp [List.filter, hzn, ih, hx]

/-- C4: the ranked sequence produced by `get_channel_data` (the
`video_details.sort(key=..., reverse=True)` of youtube_client.py lines
557-561, embedded as `rank_videos`) is sorted descending by view count,
a record without statistics or `viewCount` counting as 0, and the sort
is stable: for every view-count value, the subsequence of records with
that value is exactly the corresponding subsequence of the input. -/
theorem claim_C4_ranked_sorted_stable (l : List VideoRec) :
    (rank_videos l).Pairwise (fun a b => viewCountOf b ≤ viewCountOf a) ∧
    ∀ n : Nat, (rank_videos l).filter (fun v => viewCountOf v == n) =
      l.filter (fun v => viewCountOf v == n) := by
  constructor
  · induction l with
    | nil => simp [rank_videos]
    | cons x xs ih => exact pairwise_insertByViews ih
  · intro n
    induction l with
    | nil => rfl
    | cons x xs ih =>
      rw [rank_videos, filter_insertByViews n x (rank_videos xs)]
      by_cases hx : (viewCountOf x == n) = true
      · simp [List.filter, hx, ih]
      · simp [List.filter, hx, ih]

/-! ## Popular / least-popular window selection -/

/-- C1 (amended): `most_popular` is always the first
`min(popular_videos_count, total)` ranked videos; `least_popular` is
empty exactly when `total ≤ popular_videos_count` — not when
`total ≤ popular_videos_count + least_popular_videos_count` as claimed —
and otherwise (for `least_popular_videos_count ≥ 1`) it is the last
`min(least_popular_videos_count, total)` ranked videos, which overlaps
the most-popular window whenever
`popular_videos_count < total ≤ popular_videos_count + least_popular_videos_count`. -/
theorem claim_C1_selection_windows (cfg : FetchConfig) (l : List VideoRec)
    (hl : 1 ≤ cfg.least_popular_videos_count) :
    select_most_popular cfg l = l.take (min cfg.popular_videos_count l.length) ∧
    (l.length ≤ cfg.popular_videos_count → select_least_popular cfg l = []) ∧
    (cfg.popular_videos_count < l.length →
      select_least_popular cfg l =
        l.drop (l.length - min cfg.least_popular_videos_count l.length)) := by
  refine ⟨rfl, ?_, ?_⟩
  · intro h
    unfold select_least_popular
    have hmin : min cfg.popular_videos_count l.length = l.length := by omega
    simp [hmin]
  · intro h
    unfold select_least_popular
    have h1 : min cfg.popular_videos_count l.length = cfg.popular_videos_count := by omega
    have h2 : min cfg.least_popular_videos_count l.length ≠ 0 := by omega
    rw [h1, if_pos h, pyTakeLast, if_neg h2]

/-- Witness for C1 (amended), at the default config and eight videos. -/
theorem claim_C1_witness :
    select_least_popular {} (rank_videos demoEight) =
      (rank_videos demoEight).drop
        ((rank_videos demoEight).length -
          min ({} : FetchConfig).least_popular_videos_count (rank_videos demoEight).length) :=
  (claim_C1_selection_windows {} (rank_videos demoEight) (by decide)).2.2 (by decide)

/-- C1 counterexample: with the default config (5 popular, 5 least
popular) and 8 videos, `total = 8 ≤ 5 + 5`, yet the least-popular
window is NOT empty, and the video ranked fourth appears in both
buckets. -/
theorem claim_C1_counterexample :
    select_least_popular {} (rank_videos demoEight) ≠ [] ∧
    mkDemoVideo "d" 50 ∈ select_most_popular {} (rank_videos demoEight) ∧
    mkDemoVideo "d" 50 ∈ select_least_popular {} (rank_videos demoEight) := by
  decide

/-! ## Concurrent vs sequential comment fetching -/

/-- C7: with concurrency enabled, the concurrent comment-fetching path
produces exactly the same value as the sequential path — the same
video→comments pairings in the same order (the per-video fetch being
the deterministic `get_comments_for_video`). -/
theorem claim_C7_concurrent_eq_sequential (cfg : FetchConfig) (w : World)
    (videos : List VideoRec) (h : cfg.enable_concurrent_fetching = true) :
    get_videos_with_comments_concurrent cfg w videos =
      get_videos_with_comments_sequential cfg w videos := by
  unfold get_videos_with_comments_concurrent
  rw [h]
  simp only [Bool.not_true, Bool.false_eq_true, if_false]
  induction videos with
  | nil => rfl
  | cons v vs ih =>
    rw [List.map_cons, get_videos_with_comments_sequential]
    cases fetch_video_with_comments cfg w v with
    | error e => rfl
    | ok r =>
      rw [collectInOrder, ih]

/-- Witness for C7 at the default config and concrete data. -/
theorem claim_C7_witness :
    get_videos_with_comments_concurrent {} idleWorld demoEight =
      get_videos_with_comments_sequential {} idleWorld demoEight :=
  claim_C7_concurrent_eq_sequential {} idleWorld demoEight rfl

/-! ## Comment fetching: disabled toggle and error policy -/

/-- C10: when `enable_comments` is `False`, `_get_comments_for_video`
returns the empty list immediately, performing zero network attempts. -/
theorem claim_C10_comments_disabled (cfg : FetchConfig) (w : World) (vid : String)
    (h : cfg.enable_comments = false) :
    get_comments_for_video cfg w vid = (.ok [], 0) := by
  unfold get_comments_for_video
  rw [h]
  rfl

/-- Witness for C10 at a concrete disabled config. -/
theorem claim_C10_witness :
    get_comments_for_video { enable_comments := false } timeoutWorld "vid" = (.ok [], 0) :=
  claim_C10_comments_disabled { enable_comments := false } timeoutWorld "vid" rfl

/-- C5 (amended): with comments enabled, a comment fetch that fails with
an `HttpError` — in particular the 403 comments-disabled response —
yields the empty sequence; but a `YouTubeFetcherError` (the
retries-exhausted failure of `_retry_api_call`) is NOT caught by
`_get_comments_for_video` and propagates, aborting the aggregation. -/
theorem claim_C5_comment_fetch_errors (cfg : FetchConfig) (w : World) (vid : String)
    (hc : cfg.enable_comments = true) :
    (∀ s c, (retry_api_call cfg (w.commentsOutcome vid)).result = .raised (.httpError s c) →
      (get_comments_for_video cfg w vid).1 = .ok []) ∧
    (∀ m, (retry_api_call cfg (w.commentsOutcome vid)).result = .raised (.fetcher m) →
      (get_comments_for_video cfg w vid).1 = .error (.fetcher m)) := by
  constructor
  · intro s c hr
    unfold get_comments_for_video
    rw [hc]
    simp [hr]
  · intro m hr
    unfold get_comments_for_video
    rw [hc]
    simp [hr]

/-- Witness for C5 (amended): a 403 comments-disabled response yields
the empty sequence. -/
theorem claim_C5_witness :
    (get_comments_for_video {}
      { idleWorld with commentsOutcome := fun _ _ => .http 403 "commentsDisabled" } "vid").1 =
      .ok [] :=
  (claim_C5_comment_fetch_errors {}
    { idleWorld with commentsOutcome := fun _ _ => .http 403 "commentsDisabled" } "vid" rfl).1
    403 "commentsDisabled" (by decide)

/-- C5 counterexample: a comment fetch whose every attempt times out
(here with `retry_attempts = 1`) makes `_get_comments_for_video` raise
a `YouTubeFetcherError` instead of returning an empty sequence. -/
theorem claim_C5_counterexample :
    (get_comments_for_video { retry_attempts := 1 } timeoutWorld "vid").1 =
      .error (.fetcher "API call timed out after 1 attempts") := by
  decide

/-! ## Retry wrapper: exhaustion, success, and non-retryable errors -/

theorem retryGo_exhaust (cfg : FetchConfig) (f : Nat → Outcome α) :
    ∀ fuel attempt sleeps, fuel + attempt = cfg.retry_attempts → 1 ≤ fuel →
      (∀ i, attempt ≤ i → i < cfg.retry_attempts → isRetryable (f i) = true) →
      (retryGo cfg f fuel attempt sleeps).result =
        exhaustedResult cfg.retry_attempts (f (cfg.retry_attempts - 1)) ∧
      (retryGo cfg f fuel attempt sleeps).attempts = cfg.retry_attempts := by
  intro fuel
  induction fuel with
  | zero => intro attempt sleeps hsum hfuel hall; omega
  | succ fuel ih =>
    intro attempt sleeps hsum hfuel hall
    have hattempt : attempt < cfg.retry_attempts := by omega
    have hretry := hall attempt le_rfl hattempt
    cases hf : f attempt with
    | ok v =>
      rw [hf] at hretry
      simp [isRetryable] at hretry
    | timeout =>
      simp only [retryGo, hf]
      by_cases hlt : attempt < cfg.retry_attempts - 1
      · rw [if_pos hlt]
        exact ih (attempt + 1) _ (by omega) (by omega)
          (fun i hi1 hi2 => hall i (by omega) hi2)
      · rw [if_neg hlt]
        have hA : cfg.retry_attempts - 1 = attempt := by omega
        rw [hA, hf]
        refine ⟨rfl, ?_⟩
        show attempt + 1 = cfg.retry_attempts
        omega
    | http s c =>
      rw [hf] at hretry
      simp only [isRetryable, Bool.or_eq_true, beq_iff_eq] at hretry
      simp only [retryGo, hf]
      rcases hretry with ((((h9 | h9) | h9) | h9) | h9) <;> subst h9
      · rw [if_pos (by decide)]
        cases fuel with
        | zero =>
          have hA : cfg.retry_attempts - 1 = attempt := by omega
          rw [retryGo, hA, hf]
          refine ⟨by simp [exhaustedResult], ?_⟩
          show attempt + 1 = cfg.retry_attempts
          omega
        | succ fuel' =>
          exact ih (attempt + 1) _ (by omega) (by omega)
            (fun i hi1 hi2 => hall i (by omega) hi2)
      all_goals (
        rw [if_neg (by decide), if_pos (by decide)]
        by_cases hlt : attempt < cfg.retry_attempts - 1
        · rw [if_pos hlt]
          exact ih (attempt + 1) _ (by omega) (by omega)
            (fun i hi1 hi2 => hall i (by omega) hi2)
        · rw [if_neg hlt]
          have hA : cfg.retry_attempts - 1 = attempt := by omega
          rw [hA, hf]
          refine ⟨by simp [exhaustedResult], ?_⟩
          show attempt + 1 = cfg.retry_attempts
          omega)
    | exn m =>
      rw [hf] at hretry
      simp only [isRetryable] at hretry
      simp only [retryGo, hf]
      rw [if_pos hretry]
      by_cases hlt : attempt < cfg.retry_attempts - 1
      · rw [if_pos hlt]
        exact ih (attempt + 1) _ (by omega) (by omega)
          (fun i hi1 hi2 => hall i (by omega) hi2)
      · rw [if_neg hlt]
        have hA : cfg.retry_attempts - 1 = attempt := by omega
        rw [hA, hf]
        refine ⟨by simp [exhaustedResult, hretry], ?_⟩
        show attempt + 1 = cfg.retry_attempts
        omega

theorem retryGo_success (cfg : FetchConfig) (f : Nat → Outcome α) (v : α) :
    ∀ fuel attempt sleeps k, fuel + attempt = cfg.retry_attempts → attempt ≤ k →
      k < cfg.retry_attempts →
      (∀ i, attempt ≤ i → i < k → isRetryable (f i) = true) → f k = .ok v →
      (retryGo cfg f fuel attempt sleeps).result = .success v ∧
      (retryGo cfg f fuel attempt sleeps).attempts = k + 1 ∧
      ((retryGo cfg f fuel attempt sleeps).sleeps).length = sleeps.length + (k - attempt) := by
  intro fuel
  induction fuel with
  | zero => intro attempt sleeps k hsum hak hkN hall hk; omega
  | succ fuel ih =>
    intro attempt sleeps k hsum hak hkN hall hk
    by_cases heq : attempt = k
    · subst heq
      simp [retryGo, hk]
    · have haltk : attempt < k := by omega
      have hretry := hall attempt le_rfl haltk
      have hlt : attempt < cfg.retry_attempts - 1 := by omega
      have hihargs : ∀ i, attempt + 1 ≤ i → i < k → isRetryable (f i) = true :=
        fun i hi1 hi2 => hall i (by omega) hi2
      cases hf : f attempt with
      | ok w =>
        rw [hf] at hretry
        simp [isRetryable] at hretry
      | timeout =>
        simp only [retryGo, hf]
        rw [if_pos hlt]
        have h := ih (attempt + 1) (sleeps ++ [cfg.retry_delay * 2 ^ attempt]) k
          (by omega) (by omega) hkN hihargs hk
        refine ⟨h.1, h.2.1, ?_⟩
        rw [h.2.2]
        simp only [List.length_append, List.length_singleton]
        omega
      | http s c =>
        rw [hf] at hretry
        simp only [isRetryable, Bool.or_eq_true, beq_iff_eq] at hretry
        simp only [retryGo, hf]
        rcases hretry with ((((h9 | h9) | h9) | h9) | h9) <;> subst h9
        · rw [if_pos (by decide)]
          have h := ih (attempt + 1) (sleeps ++ [cfg.retry_delay * 2 ^ attempt]) k
            (by omega) (by omega) hkN hihargs hk
          refine ⟨h.1, h.2.1, ?_⟩
          rw [h.2.2]
          simp only [List.length_append, List.length_singleton]
          omega
        all_goals (
          rw [if_neg (by decide), if_pos (by decide), if_pos hlt]
          have h := ih (attempt + 1) (sleeps ++ [cfg.retry_delay]) k
            (by omega) (by omega) hkN hihargs hk
          refine ⟨h.1, h.2.1, ?_⟩
          rw [h.2.2]
          simp only [List.length_append, List.length_singleton]
          omega)
      | exn m =>
        rw [hf] at hretry
        simp only [isRetryable] at hretry
        simp only [retryGo, hf]
        rw [if_pos hretry, if_pos hlt]
        have h := ih (attempt + 1) (sleeps ++ [cfg.retry_delay * 2 ^ attempt]) k
          (by omega) (by omega) hkN hihargs hk
        refine ⟨h.1, h.2.1, ?_⟩
        rw [h.2.2]
        simp only [List.length_append, List.length_singleton]
        omega

/-- C2 (amended): if every one of the `retry_attempts` attempts fails
with a failure the wrapper treats as retryable (timeout, HTTP 429, HTTP
500/502/503/504, or a connection/SSL-keyword exception), then exactly
`retry_attempts` attempts are made and the result is the exhaustion
value determined by the final attempt's failure — a `YouTubeFetcherError`
for timeouts, rate limits, and connection failures, but the underlying
`HttpError` re-raised (NOT a `YouTubeFetcherError`) for the 5xx
statuses; and an operation failing retryably exactly `k < retry_attempts`
times before succeeding returns the success value after exactly `k`
backoff sleeps. -/
theorem claim_C2_retry_exhaustion_and_success {α : Type} (cfg : FetchConfig)
    (hN : 1 ≤ cfg.retry_attempts) :
    (∀ f : Nat → Outcome α,
      (∀ i, i < cfg.retry_attempts → isRetryable (f i) = true) →
      (retry_api_call cfg f).result =
        exhaustedResult cfg.retry_attempts (f (cfg.retry_attempts - 1)) ∧
      (retry_api_call cfg f).attempts = cfg.retry_attempts) ∧
    (∀ (f : Nat → Outcome α) (k : Nat) (v : α), k < cfg.retry_attempts →
      (∀ i, i < k → isRetryable (f i) = true) → f k = .ok v →
      (retry_api_call cfg f).result = .success v ∧
      ((retry_api_call cfg f).sleeps).length = k) := by
  constructor
  · intro f hall
    exact retryGo_exhaust cfg f cfg.retry_attempts 0 [] (by omega) (by omega)
      (fun i _ hi2 => hall i hi2)
  · intro f k v hk hall hfk
    have h := retryGo_success cfg f v cfg.retry_attempts 0 [] k (by omega) (by omega)
      hk (fun i _ hi2 => hall i hi2) hfk
    refine ⟨h.1, ?_⟩
    have h3 : (retry_api_call cfg f).sleeps.length = List.length ([] : List ℚ) + (k - 0) := h.2.2
    simpa using h3

/-- Witness for C2 (amended): with two attempts, an always-timing-out
call makes exactly 2 attempts and raises the timed-out
`YouTubeFetcherError`; a call timing out once then succeeding returns
the value after exactly one backoff sleep. -/
theorem claim_C2_witness :
    ((retry_api_call { retry_attempts := 2 } (fun _ => (.timeout : Outcome Nat))).result =
      exhaustedResult ({ retry_attempts := 2 } : FetchConfig).retry_attempts
        ((fun _ => (.timeout : Outcome Nat)) (({ retry_attempts := 2 } : FetchConfig).retry_attempts - 1)) ∧
    (retry_api_call { retry_attempts := 2 } (fun _ => (.timeout : Outcome Nat))).attempts =
      ({ retry_attempts := 2 } : FetchConfig).retry_attempts) ∧
    ((retry_api_call { retry_attempts := 2 }
        (fun i => if i = 0 then (.timeout : Outcome Nat) else .ok 7)).result = .success 7 ∧
    ((retry_api_call { retry_attempts := 2 }
        (fun i => if i = 0 then (.timeout : Outcome Nat) else .ok 7)).sleeps).length = 1) :=
  ⟨(claim_C2_retry_exhaustion_and_success { retry_attempts := 2 } (by decide)).1
      (fun _ => .timeout) (fun i _ => rfl),
   (claim_C2_retry_exhaustion_and_success { retry_attempts := 2 } (by decide)).2
      (fun i => if i = 0 then .timeout else .ok 7) 1 7 (by decide)
      (fun i hi => by
        have h0 : i = 0 := by omega
        subst h0
        rfl)
      rfl⟩

/-- C2 counterexample: an operation failing with HTTP 500 on both of 2
attempts ends with the `HttpError` re-raised, not with the distinguished
`YouTubeFetcherError`. -/
theorem claim_C2_counterexample :
    (retry_api_call { retry_attempts := 2, retry_delay := 1 }
        (fun _ => (.http 500 "err" : Outcome Nat))).result =
      .raised (.httpError 500 "err") ∧
    (retry_api_call { retry_attempts := 2, retry_delay := 1 }
        (fun _ => (.http 500 "err" : Outcome Nat))).attempts = 2 := by
  decide

theorem retryGo_otherExn (cfg : FetchConfig) (f : Nat → Outcome α) (m : String)
    (hm : hasConnKeyword m = false) :
    ∀ fuel attempt sleeps, fuel + attempt = cfg.retry_attempts → 1 ≤ fuel →
      (∀ i, attempt ≤ i → i < cfg.retry_attempts → f i = .exn m) →
      (retryGo cfg f fuel attempt sleeps).result = .raised (.otherExn m) ∧
      (retryGo cfg f fuel attempt sleeps).attempts = cfg.retry_attempts ∧
      ((retryGo cfg f fuel attempt sleeps).sleeps).length = sleeps.length + (fuel - 1) := by
  intro fuel
  induction fuel with
  | zero => intro attempt sleeps hsum hfuel hall; omega
  | succ fuel ih =>
    intro attempt sleeps hsum hfuel hall
    have hattempt : attempt < cfg.retry_attempts := by omega
    have hf := hall attempt le_rfl hattempt
    simp only [retryGo, hf]
    rw [if_neg (by simp [hm])]
    by_cases hlt : attempt < cfg.retry_attempts - 1
    · rw [if_pos hlt]
      have h := ih (attempt + 1) (sleeps ++ [cfg.retry_delay]) (by omega) (by omega)
        (fun i hi1 hi2 => hall i (by omega) hi2)
      refine ⟨h.1, h.2.1, ?_⟩
      rw [h.2.2]
      simp only [List.length_append, List.length_singleton]
      omega
    · rw [if_neg hlt]
      refine ⟨rfl, ?_, ?_⟩
      · show attempt + 1 = cfg.retry_attempts
        omega
      · show sleeps.length = sleeps.length + (fuel + 1 - 1)
        omega

/-- C3 (amended): a non-retryable `HttpError` (status outside
{429, 500, 502, 503, 504}) is propagated immediately on the first
attempt with no further attempts and no sleeps; but any other
non-retryable error — an exception without a connection/SSL keyword in
its text — is NOT propagated immediately: it is retried with a fixed
`retry_delay` sleep and only re-raised on the final attempt, after
`retry_attempts` attempts and `retry_attempts - 1` sleeps. -/
theorem claim_C3_nonretryable_propagation {α : Type} (cfg : FetchConfig)
    (hN : 1 ≤ cfg.retry_attempts) :
    (∀ (f : Nat → Outcome α) (s : Nat) (c : String),
      isRetryable (Outcome.http s c : Outcome α) = false → f 0 = .http s c →
      retry_api_call cfg f = ⟨.raised (.httpError s c), 1, []⟩) ∧
    (∀ (f : Nat → Outcome α) (m : String), hasConnKeyword m = false →
      (∀ i, i < cfg.retry_attempts → f i = .exn m) →
      (retry_api_call cfg f).result = .raised (.otherExn m) ∧
      (retry_api_call cfg f).attempts = cfg.retry_attempts ∧
      ((retry_api_call cfg f).sleeps).length = cfg.retry_attempts - 1) := by
  constructor
  · intro f s c hnr hf0
    obtain ⟨n, hn⟩ : ∃ n, cfg.retry_attempts = n + 1 :=
      ⟨cfg.retry_attempts - 1, by omega⟩
    simp only [isRetryable, Bool.or_eq_false_iff, beq_eq_false_iff_ne, ne_eq] at hnr
    obtain ⟨⟨⟨⟨h1, h2⟩, h3⟩, h4⟩, h5⟩ := hnr
    unfold retry_api_call
    rw [hn]
    simp only [retryGo, hf0]
    rw [if_neg (by simpa using h1), if_neg (by simp [h2, h3, h4, h5])]
  · intro f m hm hall
    have h := retryGo_otherExn cfg f m hm cfg.retry_attempts 0 [] (by omega) (by omega)
      (fun i _ hi2 => hall i hi2)
    refine ⟨h.1, h.2.1, ?_⟩
    have h3 : (retry_api_call cfg f).sleeps.length =
        List.length ([] : List ℚ) + (cfg.retry_attempts - 1) := h.2.2
    simpa using h3

/-- Witness for C3 (amended): an HTTP 404 propagates immediately after
one attempt with no sleeps. -/
theorem claim_C3_witness :
    retry_api_call { retry_attempts := 2 } (fun _ => (.http 404 "nf" : Outcome Nat)) =
      ⟨.raised (.httpError 404 "nf"), 1, []⟩ :=
  (claim_C3_nonretryable_propagation { retry_attempts := 2 } (by decide)).1
    (fun _ => .http 404 "nf") 404 "nf" (by decide) rfl

/-- C3 counterexample: a generic exception (`"boom"`, no connection/SSL
keyword) is outside every retryable class, yet with 2 configured
attempts the wrapper performs 2 attempts and 1 sleep before re-raising
it — not an immediate propagation on the first attempt. -/
theorem claim_C3_counterexample :
    (retry_api_call { retry_attempts := 2, retry_delay := 1 }
        (fun _ => (.exn "boom" : Outcome Nat))).attempts = 2 ∧
    ((retry_api_call { retry_attempts := 2, retry_delay := 1 }
        (fun _ => (.exn "boom" : Outcome Nat))).sleeps).length = 1 ∧
    (retry_api_call { retry_attempts := 2, retry_delay := 1 }
        (fun _ => (.exn "boom" : Outcome Nat))).result = .raised (.otherExn "boom") := by
  decide

/-! ## Idempotent channel-identifier resolution (caching) -/

/-- C8: channel-identifier resolution is idempotent per fetcher
instance: if `_extract_channel_id` succeeds with a (truthy) identifier
`c` for a link, a second call with the same link against the resulting
instance state returns the same `c` and leaves the state — cache and
network-call count — unchanged: it is served from the cache with no
network call. -/
theorem claim_C8_extract_idempotent (rem : Remote) (u : Link) (st st₁ : FetchState)
    (c : String) (h : extract_channel_id rem u st = (some c, st₁)) (hc : c ≠ "") :
    extract_channel_id rem u st₁ = (some c, st₁) := by
  have hv : validate_url u = true := by
    cases hvb : validate_url u
    · unfold extract_channel_id at h
      rw [hvb] at h
      simp at h
    · rfl
  unfold extract_channel_id at h ⊢
  rw [hv] at h ⊢
  simp only [Bool.not_true, Bool.false_eq_true, if_false] at h ⊢
  cases hcl : cacheLookup st.cache ("channel_id:" ++ u.raw) with
  | some c' =>
    simp only [hcl] at h
    have hcc : c' = c := Option.some.inj (congrArg Prod.fst h)
    have hst : st = st₁ := congrArg Prod.snd h
    subst hcc
    subst hst
    simp only [hcl]
  | none =>
    simp only [hcl] at h
    by_cases ht : pyTruthy (resolveByPath rem u).1 = true
    · rw [if_pos ht] at h
      have hr1 : (resolveByPath rem u).1 = some c := congrArg Prod.fst h
      rw [hr1] at h
      simp only [Option.getD_some] at h
      have hst : st₁ =
          ⟨("channel_id:" ++ u.raw, c) :: st.cache,
           st.networkCalls + (resolveByPath rem u).2⟩ :=
        (congrArg Prod.snd h).symm
      subst hst
      have hck : cacheLookup
          (("channel_id:" ++ u.raw, c) :: st.cache) ("channel_id:" ++ u.raw) = some c := by
        simp [cacheLookup]
      simp only [hck]
    · rw [if_neg ht] at h
      have hr1 : (resolveByPath rem u).1 = some c := congrArg Prod.fst h
      rw [hr1] at ht
      simp [pyTruthy, hc] at ht

/-- Witness for C8: resolving a handle link once caches `UCabc`; the
second resolution returns the cached identifier with the state
untouched. -/
theorem claim_C8_witness :
    extract_channel_id demoRemote demoLink demoState1 = (some "UCabc", demoState1) :=
  claim_C8_extract_idempotent demoRemote demoLink ⟨[], 0⟩ demoState1 "UCabc"
    (by decide) (by decide)

/-! ## `analyze_link` error propagation and host routing -/

/-- C6 (amended): `analyze_link` returns a structured error field for a
link without a hostname (and similar pre-fetch failures), but when a
YouTube channel link's identifier cannot be resolved,
`get_channel_data` raises `YouTubeFetcherError` and `analyze_link` —
which wraps the fetch in no `try`/`except` — propagates the exception to
its caller instead of returning an `error` field. -/
theorem claim_C6_analyze_link_errors :
    (∀ (apiKey : String) (rem : Remote) (w : World) (u : Link),
      hostnameOf u = none → analyze_link apiKey rem w u = .errorField "Invalid link") ∧
    (∀ (apiKey : String) (rem : Remote) (w : World) (u : Link) (host : String),
      hostnameOf u = some host → strContains host "youtube.com" = true →
      apiKey ≠ "" →
      strContains u.path "watch" = false → strContains host "youtu.be" = false →
      (extract_channel_id rem u ⟨[], 0⟩).1 = none →
      analyze_link apiKey rem w u =
        .raised (.fetcher ("Could not extract channel ID from " ++ u.raw))) := by
  constructor
  · intro apiKey rem w u hh
    unfold analyze_link
    rw [hh]
  · intro apiKey rem w u host hh hyt hkey hw hbe hfail
    unfold analyze_link
    simp only [hh]
    rw [if_pos (by simp [hyt])]
    rw [if_neg (by simpa using hkey)]
    rw [if_neg (by simp [hw, hbe])]
    have hp : pyTruthy (extract_channel_id rem u ⟨[], 0⟩).1 = false := by
      rw [hfail]
      rfl
    simp only [get_channel_data, hp, Bool.not_false, if_true]

/-- Witness for C6 (amended): a `/c/` link whose search strategies all
fail makes `analyze_link` end in a propagated `YouTubeFetcherError`. -/
theorem claim_C6_witness :
    analyze_link "k" noRemote idleWorld demoCLink =
      .raised (.fetcher ("Could not extract channel ID from " ++ demoCLink.raw)) :=
  claim_C6_analyze_link_errors.2 "k" noRemote idleWorld demoCLink "www.youtube.com"
    (by decide) (by decide) (by decide) (by decide) (by decide) (by decide)

/-- C6 counterexample: for the unresolvable channel link, the
`analyze_link` result is a propagated exception, not a returned
`{"error": ...}` value. -/
theorem claim_C6_counterexample :
    isErrorField (analyze_link "k" noRemote idleWorld demoCLink) = false ∧
    isRaisedExn (analyze_link "k" noRemote idleWorld demoCLink) = true := by
  decide

/-- C9: a link whose hostname contains `youtube.com` as a substring but
is not exactly `www.youtube.com`, `youtube.com`, or `youtu.be` (for
example `m.youtube.com`) is routed to the fetcher by `analyze_link`,
yet `_validate_url` rejects it, so identifier extraction yields no
identifier and the request fails with a `YouTubeFetcherError`. -/
theorem claim_C9_mobile_host_rejected (apiKey : String) (rem : Remote) (w : World)
    (u : Link) (host : String)
    (hh : hostnameOf u = some host) (hyt : strContains host "youtube.com" = true)
    (h1 : host ≠ "www.youtube.com") (h2 : host ≠ "youtube.com") (h3 : host ≠ "youtu.be")
    (hkey : apiKey ≠ "") :
    validate_url u = false ∧
    analyze_link apiKey rem w u =
      .raised (.fetcher
        (if strContains u.path "watch" || strContains host "youtu.be" then
          "Could not extract video ID from " ++ u.raw
        else
          "Could not extract channel ID from " ++ u.raw)) := by
  have hne : u.netloc ≠ "" := by
    intro h0
    rw [hostnameOf, h0] at hh
    simp at hh
  have hhost : host = hostOf u.netloc := by
    rw [hostnameOf] at hh
    rw [if_neg (by simpa using hne)] at hh
    exact (Option.some.inj hh).symm
  have e1 : u.netloc ≠ "www.youtube.com" := by
    intro h0
    apply h1
    rw [hhost, h0]
    decide
  have e2 : u.netloc ≠ "youtube.com" := by
    intro h0
    apply h2
    rw [hhost, h0]
    decide
  have e3 : u.netloc ≠ "youtu.be" := by
    intro h0
    apply h3
    rw [hhost, h0]
    decide
  have hnv : validate_url u = false := by
    simp [validate_url, e1, e2, e3]
  refine ⟨hnv, ?_⟩
  unfold analyze_link
  simp only [hh]
  rw [if_pos (by simp [hyt])]
  rw [if_neg (by simpa using hkey)]
  by_cases hr : (strContains u.path "watch" || strContains host "youtu.be") = true
  · rw [if_pos hr, if_pos hr]
    have hvid : extract_video_id u = none := by
      unfold extract_video_id
      rw [hnv]
      rfl
    have hp : pyTruthy (extract_video_id u) = false := by
      rw [hvid]
      rfl
    simp only [get_video_data, hp, Bool.not_false, if_true]
  · rw [if_neg hr, if_neg hr]
    have hfail : (extract_channel_id rem u ⟨[], 0⟩).1 = none := by
      unfold extract_channel_id
      rw [hnv]
      rfl
    have hp : pyTruthy (extract_channel_id rem u ⟨[], 0⟩).1 = false := by
      rw [hfail]
      rfl
    simp only [get_channel_data, hp, Bool.not_false, if_true]

/-- Witness for C9: `https://m.youtube.com/@foo` reaches the fetcher and
fails with a `YouTubeFetcherError` from channel-identifier extraction. -/
theorem claim_C9_witness :
    validate_url demoMobileLink = false ∧
    analyze_link "k" noRemote idleWorld demoMobileLink =
      .raised (.fetcher
        (if strContains demoMobileLink.path "watch" ||
            strContains "m.youtube.com" "youtu.be" then
          "Could not extract video ID from " ++ demoMobileLink.raw
        else
          "Could not extract channel ID from " ++ demoMobileLink.raw)) :=
  claim_C9_mobile_host_rejected "k" noRemote idleWorld demoMobileLink "m.youtube.com"
    (by decide) (by decide) (by decide) (by decide) (by decide) (by decide)

end AudiencePulse
